import Mathlib

/-!
Shallow embedding of the OAuth credential-lifecycle backend
(`src/index.js`, `src/db.js`, `src/store.js`, `src/unnamed/part_000`).

Conventions of the embedding:
* JavaScript query objects / HTTP headers are association lists
  `List (String × String)`; an absent key is `Option.none`, and JS
  falsiness of a string (`undefined` or `""`) is `jsTruthy`.
* Timestamps (`Date.now()`, SQL `NOW()`) are `Nat` milliseconds passed
  explicitly as a `now` argument.
* The node `crypto` HMAC primitives are external library collaborators,
  not code of this repository, so they appear as abstract parameters
  `hm : String → String → String` (secret → message → digest); the
  embedding captures everything the repository itself computes:
  canonicalization, comparison and control flow.
* The Postgres pool of `src/db.js` is modelled by `StorageMode`:
  `.up` (healthy), `.connectFail` (`pool.connect()` rejects, which in the
  source happens OUTSIDE every `try` block and therefore propagates as a
  thrown error, `Except.error`), `.queryFail` (`client.query` throws,
  which every db function catches internally).
* Async handlers are pure state-passing functions returning the HTTP
  response outcome together with the store after the request.
-/

/-- A row of the `shops` table created by `initDB` in `src/db.js`. -/
structure ShopRecord where
  access_token : String
  scope : String
  installed_at : Nat
  updated_at : Nat
deriving DecidableEq, Repr

/-- The `shops` table: keyed rows, `shop` is the primary key (unique). -/
abbrev Store := List (String × ShopRecord)

/-- Availability of the underlying Postgres storage, distinguishing the
two failure points of every `src/db.js` function: acquiring the client
(`pool.connect()`, outside the `try`) and running the query (inside). -/
inductive StorageMode
  | up
  | connectFail
  | queryFail
deriving DecidableEq, Repr

/-- JS truthiness of a possibly-absent string parameter:
`undefined` and `""` are falsy. -/
def jsTruthy : Option String → Bool
  | none => false
  | some s => !(s == "")

/-- The `ON CONFLICT (shop) DO UPDATE` upsert of `saveShop` in
`src/db.js` (lines 51–60): insert a fresh row with
`installed_at = updated_at = NOW()` when the shop is absent, otherwise
overwrite only `access_token`, `scope` and `updated_at`
(the `DO UPDATE SET` clause, split out as `upsertRow`). -/
def upsertRow (token scope : String) (now : Nat) (r : ShopRecord) : ShopRecord :=
  { r with access_token := token, scope := scope, updated_at := now }

/-- The whole-table effect of `saveShop`'s `INSERT ... ON CONFLICT`
statement in `src/db.js` (lines 51–60). -/
def sqlUpsert (store : Store) (shop token scope : String) (now : Nat) : Store :=
  match store.lookup shop with
  | some _ =>
      store.map (fun p =>
        if p.1 = shop then (p.1, upsertRow token scope now p.2) else p)
  | none => store ++ [(shop, ⟨token, scope, now, now⟩)]

/-- `getShop` from `src/db.js` (lines 31–45): `SELECT * FROM shops WHERE
shop = $1`, returning `result.rows[0] || null`; a query error is caught
and also returns `null`; a `pool.connect()` rejection propagates. -/
def getShop (mode : StorageMode) (store : Store) (shop : String) :
    Except Unit (Option ShopRecord) :=
  match mode with
  | .connectFail => .error ()
  | .queryFail => .ok none
  | .up => .ok (store.lookup shop)

/-- `saveShop` from `src/db.js` (lines 48–69): the upsert, returning
`true`; a query error is caught and returns `false` leaving the table
unchanged; a `pool.connect()` rejection propagates. -/
def saveShop (mode : StorageMode) (store : Store) (shop token scope : String)
    (now : Nat) : Except Unit (Store × Bool) :=
  match mode with
  | .connectFail => .error ()
  | .queryFail => .ok (store, false)
  | .up => .ok (sqlUpsert store shop token scope now, true)

/-- `deleteShop` from `src/db.js` (lines 72–84): `DELETE FROM shops
WHERE shop = $1`, returning `true`; a query error is caught and returns
`false`; a `pool.connect()` rejection propagates. -/
def deleteShop (mode : StorageMode) (store : Store) (shop : String) :
    Except Unit (Store × Bool) :=
  match mode with
  | .connectFail => .error ()
  | .queryFail => .ok (store, false)
  | .up => .ok (store.filter (fun p => p.1 ≠ shop), true)

/-- `getAllShops` from `src/db.js` (lines 87–98): `SELECT shop, scope,
installed_at FROM shops`; a query error is caught and returns `[]`;
a `pool.connect()` rejection propagates. -/
def getAllShops (mode : StorageMode) (store : Store) :
    Except Unit (List (String × String × Nat)) :=
  match mode with
  | .connectFail => .error ()
  | .queryFail => .ok []
  | .up => .ok (store.map (fun p => (p.1, p.2.scope, p.2.installed_at)))

/-- The global `nonces` map of `src/index.js` (line 55): nonce value to
issuance timestamp; `Map` keys are unique. -/
abbrev NonceRegistry := List (String × Nat)

/-- `validateNonce` from `src/index.js` (lines 61–68), returning the
result together with the registry after the call (`Map.delete` removes
the entry on success). A falsy `state` (`undefined` or `""`) is
rejected up front. No timestamp is consulted. -/
def validateNonce (nonces : NonceRegistry) (state : Option String) :
    Bool × NonceRegistry :=
  match state with
  | none => (false, nonces)
  | some s =>
    if s == "" then (false, nonces)
    else if (nonces.lookup s).isSome then (true, nonces.filter (fun p => p.1 ≠ s))
    else (false, nonces)

/-- One firing of the `setInterval` sweep in `src/index.js`
(lines 70–77): delete every entry with `now - timestamp > 600000`. -/
def sweepNonces (now : Nat) (nonces : NonceRegistry) : NonceRegistry :=
  nonces.filter (fun p => !(now - p.2 > 600000 : Bool))

/-- The parameters of a query object minus the destructured `hmac` key:
`const { hmac, ...rest } = query` in both `verifyHmac` variants. -/
def restParams (query : List (String × String)) : List (String × String) :=
  query.filter (fun p => p.1 ≠ "hmac")

/-- `rest[key]` for a key coming from `Object.keys(rest)` (always
present, so the default is never hit on a well-formed object). -/
def jsIndex (rest : List (String × String)) (k : String) : String :=
  match rest.lookup k with
  | some v => v
  | none => "undefined"

/-- Lexicographic comparison of character lists by code point, the
order under which the default JS `Array.prototype.sort()` compares the
(ASCII) parameter names. -/
def charsLe : List Char → List Char → Bool
  | [], _ => true
  | _ :: _, [] => false
  | a :: as, b :: bs =>
    if a < b then true
    else if b < a then false
    else charsLe as bs

/-- Lexicographic string comparison by code point. -/
def strLe (a b : String) : Bool := charsLe a.data b.data

/-- `Object.keys(rest).sort()`: ascending lexicographic sort of the
key names. -/
def sortKeys (l : List String) : List String :=
  List.insertionSort (fun a b : String => strLe a b = true) l

/-- The canonical message of `verifyHmac` in `src/index.js`
(lines 37–40): keys of the non-`hmac` parameters, sorted ascending,
rendered `key=value` and joined with `&`. -/
def canonicalMessage (query : List (String × String)) : String :=
  String.intercalate "&"
    ((sortKeys ((restParams query).map Prod.fst)).map
      (fun k => k ++ "=" ++ jsIndex (restParams query) k))

/-- `verifyHmac` from `src/index.js` (lines 29–50): reject a falsy
`hmac` parameter up front, recompute the hex digest of the canonical
message with the shared secret, and compare with `===`. The HMAC-SHA-256
hex primitive `hm` is the abstract `crypto.createHmac(...).digest("hex")`
collaborator. -/
def verifyHmac (hm : String → String → String) (secret : String)
    (query : List (String × String)) : Bool :=
  match query.lookup "hmac" with
  | none => false
  | some h => if h == "" then false else hm secret (canonicalMessage query) == h

/-- `verifyHmac` from `src/unnamed/part_000` (lines 23–37): identical
canonicalization but no falsy guard; when `hmac` is `undefined` the
comparison `generatedHmac === hmac` of a string with `undefined` is
`false`. -/
def verifyHmacV0 (hm : String → String → String) (secret : String)
    (query : List (String × String)) : Bool :=
  match query.lookup "hmac" with
  | none => false
  | some h => hm secret (canonicalMessage query) == h

/-- The body of the token-exchange response
(`POST https://{shop}/admin/oauth/access_token`): the platform returns
the access token and the granted scope; `src/index.js` reads only
`tokenRes.data.access_token`. -/
structure TokenResponse where
  access_token : String
  scope : String
deriving DecidableEq, Repr

/-- Outcome of the `/auth/callback` handler in `src/index.js`
(lines 164–203). -/
inductive CallbackResponse
  /-- 400 "Missing shop or code" -/
  | missingParams
  /-- 400 "HMAC failed" -/
  | hmacFailed
  /-- 500 "OAuth failed" (the single `catch` of the handler) -/
  | oauthFailed
  /-- 302 redirect to the post-install frontend -/
  | success
deriving DecidableEq, Repr

/-- The `/auth/callback` handler of `src/index.js` (lines 164–203):
check `shop`/`code` presence, check `verifyHmac`, then inside one
`try` perform the token exchange (abstracted as its outcome `exchange`,
since the axios call is external) and `saveShop(shop, accessToken,
process.env.SCOPES)`, ignoring `saveShop`'s boolean result; any error
thrown inside the `try` (exchange failure, or a `pool.connect()`
rejection escaping `saveShop`) yields the 500. The handler never
touches the nonce registry: `validateNonce` is not called. -/
def callbackHandler (hm : String → String → String) (secret scopes : String)
    (exchange : Except Unit TokenResponse) (mode : StorageMode)
    (store : Store) (now : Nat) (query : List (String × String)) :
    CallbackResponse × Store :=
  let shop := query.lookup "shop"
  let code := query.lookup "code"
  if !(jsTruthy shop && jsTruthy code) then (.missingParams, store)
  else if !(verifyHmac hm secret query) then (.hmacFailed, store)
  else
    match exchange with
    | .error _ => (.oauthFailed, store)
    | .ok tok =>
      match saveShop mode store (shop.getD "") tok.access_token scopes now with
      | .error _ => (.oauthFailed, store)
      | .ok (store2, _saved) => (.success, store2)

/-- Outcome of the `/webhooks/app_uninstalled` handler. -/
inductive WebhookResponse
  /-- 200 "OK" -/
  | ok200
  /-- 403 "HMAC validation failed" -/
  | forbidden403
deriving DecidableEq, Repr

/-- The `/webhooks/app_uninstalled` handler of `src/index.js`
(lines 240–260): recompute the base64 digest of the raw JSON body with
the abstract HMAC-SHA-256-base64 collaborator `hb`, compare with the
`X-Shopify-Hmac-Sha256` header (absent header never equals the digest
string), 403 on mismatch; otherwise read the shop from the
`X-Shopify-Shop-Domain` header and `await deleteShop(shop)` with the
result ignored, then 200. There is no `try` around `deleteShop`, so a
`pool.connect()` rejection propagates out of the handler
(`Except.error`: no response is produced by this code). -/
def webhookHandler (hb : String → String → String) (secret : String)
    (mode : StorageMode) (store : Store) (body : String)
    (hmacHeader : Option String) (shopHeader : String) :
    Except Unit (WebhookResponse × Store) :=
  let digest := hb secret body
  let sigOk := match hmacHeader with
    | some h => digest == h
    | none => false
  if !sigOk then .ok (.forbidden403, store)
  else
    match deleteShop mode store shopHeader with
    | .error _ => .error ()
    | .ok (store2, _deleted) => .ok (.ok200, store2)

/-- The `/debug/shops` endpoint of `src/index.js` (lines 265–268):
`res.json(await getAllShops())`. -/
def debugShops (mode : StorageMode) (store : Store) :
    Except Unit (List (String × String × Nat)) :=
  getAllShops mode store

/-- A value of the `shops.json` object written by the callback of
`src/unnamed/part_000` (lines 101–107): no `updated_at` field. -/
structure ShopRecordV0 where
  access_token : String
  scope : String
  installed_at : String
deriving DecidableEq, Repr

/-- The `shops.json` store of `src/store.js`: a JSON object keyed by
shop domain. -/
abbrev StoreV0 := List (String × ShopRecordV0)

/-- JS object assignment `db[shop] = record`: replace the whole value
when the key exists, else add the key. -/
def dbAssign (db : StoreV0) (shop : String) (r : ShopRecordV0) : StoreV0 :=
  match db.lookup shop with
  | some _ => db.map (fun p => if p.1 = shop then (p.1, r) else p)
  | none => db ++ [(shop, r)]

/-- The persistence step of the `/auth/callback` handler in
`src/unnamed/part_000` (lines 101–107): `db[shop] = { access_token,
scope: SCOPES, installed_at: new Date().toISOString() }` — the whole
record, `installed_at` included, is overwritten on every install. -/
def callbackPersistV0 (db : StoreV0) (shop accessToken scopes nowIso : String) :
    StoreV0 :=
  dbAssign db shop ⟨accessToken, scopes, nowIso⟩

/-- The `/debug/shops` endpoint of `src/unnamed/part_000`
(lines 121–123): `res.json(readDB())` — the entire store, access
tokens included. -/
def debugShopsV0 (db : StoreV0) : StoreV0 :=
  db

/-- Character-by-character short-circuit equality with an explicit cost:
the number of character comparisons performed before the JS `===`
comparison of two strings can return. This is the timing model of the
`digest === hmac` comparison in `verifyHmac` (`src/index.js` line 47);
the source does not use `crypto.timingSafeEqual`. -/
def eqCost : List Char → List Char → Bool × Nat
  | [], [] => (true, 0)
  | [], _ :: _ => (false, 0)
  | _ :: _, [] => (false, 0)
  | a :: as, b :: bs =>
    if a = b then
      let r := eqCost as bs
      (r.1, r.2 + 1)
    else (false, 1)

/-- `eqCost` on the character data of two strings. -/
def stringEqCost (a b : String) : Bool × Nat :=
  eqCost a.data b.data

/-- `verifyHmac` with the final `===` comparison instrumented by
`stringEqCost`: same boolean outcome, plus the number of character
comparisons the equality performs. -/
def verifyHmacTimed (hm : String → String → String) (secret : String)
    (query : List (String × String)) : Bool × Nat :=
  match query.lookup "hmac" with
  | none => (false, 0)
  | some h =>
    if h == "" then (false, 0)
    else stringEqCost (hm secret (canonicalMessage query)) h

/-- A concrete stand-in for the abstract keyed-digest collaborator, used
to instantiate handlers on concrete inputs. -/
def hmDummy (secret msg : String) : String :=
  secret ++ ":" ++ msg

/-- A concrete callback query whose `hmac` parameter is valid for
`hmDummy` and secret `"sec"`. -/
def qValid : List (String × String) :=
  [("code", "c0"),
   ("hmac", "sec:code=c0&shop=acme.myshopify.com&state=st1"),
   ("shop", "acme.myshopify.com"),
   ("state", "st1")]

/-- Stable sort of whole parameter pairs by key name, used by the
spec-side formulation of the canonical message. -/
def sortPairs (l : List (String × String)) : List (String × String) :=
  List.insertionSort (fun p q : String × String => strLe p.1 q.1 = true) l

/-- Modelled from the spec: the canonical form of §4.3 — all parameters
except the signature itself, sorted by parameter name ascending, joined
as `key=value` pairs with `&`. Stated over the pairs directly, to be
compared with `canonicalMessage`, which mirrors the source's
key-extraction-then-index formulation. -/
def specCanonicalMessage (query : List (String × String)) : String :=
  String.intercalate "&"
    ((sortPairs (query.filter (fun p => p.1 ≠ "hmac"))).map
      (fun p => p.1 ++ "=" ++ p.2))

/-- What `installed_at` must be after an upsert: preserved when the
shop already has a row, the insertion time on first install. -/
def installedAfter (store : Store) (shop : String) (now : Nat) : Nat :=
  match store.lookup shop with
  | some old => old.installed_at
  | none => now

/-- `access_token` set to a fixed placeholder: two stores agree on
everything but their secrets iff their `eraseTokens` images agree. -/
def eraseTokens (store : Store) : Store :=
  store.map (fun p => (p.1, { p.2 with access_token := "" }))

/-! ### Helper lemmas about association lists and the sorts -/

theorem map_fst_orderedInsert (x : String × String) (l : List (String × String)) :
    (List.orderedInsert (fun p q : String × String => strLe p.1 q.1 = true) x l).map
        Prod.fst
      = List.orderedInsert (fun a b : String => strLe a b = true) x.1
          (l.map Prod.fst) := by
  induction l with
  | nil => rfl
  | cons y t ih =>
    simp only [List.orderedInsert, List.map_cons]
    split_ifs with h
    · rfl
    · simp [ih]

theorem map_fst_sortPairs (l : List (String × String)) :
    (sortPairs l).map Prod.fst = sortKeys (l.map Prod.fst) := by
  induction l with
  | nil => rfl
  | cons y t ih =>
    simp only [sortPairs, sortKeys, List.insertionSort, List.map_cons] at *
    rw [map_fst_orderedInsert, ih]

theorem lookup_cons_self {β : Type} (k : String) (v : β) (t : List (String × β)) :
    ((k, v) :: t).lookup k = some v := by
  simp [List.lookup]

theorem lookup_cons_ne {β : Type} {k a : String} (v : β) (t : List (String × β))
    (h : k ≠ a) : ((a, v) :: t).lookup k = t.lookup k := by
  have hb : (k == a) = false := beq_eq_false_iff_ne.2 h
  simp [List.lookup, hb]

theorem lookup_of_mem_nodup {β : Type} {l : List (String × β)} {p : String × β}
    (hm : p ∈ l) (hn : (l.map Prod.fst).Nodup) : l.lookup p.1 = some p.2 := by
  induction l with
  | nil => cases hm
  | cons y t ih =>
    obtain ⟨a, v⟩ := y
    rw [List.map_cons] at hn
    have h1 : a ∉ t.map Prod.fst := (List.nodup_cons.1 hn).1
    have h2 : (t.map Prod.fst).Nodup := (List.nodup_cons.1 hn).2
    rcases List.mem_cons.1 hm with h | h
    · subst h
      exact lookup_cons_self a v t
    · have hne : p.1 ≠ a := fun heq => h1 (heq ▸ List.mem_map_of_mem Prod.fst h)
      rw [lookup_cons_ne v t hne]
      exact ih h h2

theorem canonicalMessage_eq_spec (q : List (String × String))
    (h : (q.map Prod.fst).Nodup) : canonicalMessage q = specCanonicalMessage q := by
  have hrest : ((restParams q).map Prod.fst).Nodup :=
    h.sublist ((List.filter_sublist q).map Prod.fst)
  unfold canonicalMessage specCanonicalMessage
  congr 1
  rw [show (q.filter (fun p => p.1 ≠ "hmac")) = restParams q from rfl,
    ← map_fst_sortPairs, List.map_map]
  refine List.map_congr_left ?_
  intro p hp
  have hpmem : p ∈ restParams q := by
    simpa [sortPairs] using (List.mem_insertionSort _ (l := restParams q)).1 hp
  have hlk := lookup_of_mem_nodup hpmem hrest
  simp [Function.comp, jsIndex, hlk]

theorem lookup_append_single {β : Type} (l : List (String × β)) (k shop : String)
    (r : β) (hk : k ≠ shop) : (l ++ [(shop, r)]).lookup k = l.lookup k := by
  induction l with
  | nil => simpa using lookup_cons_ne r [] hk
  | cons y t ih =>
    obtain ⟨a, v⟩ := y
    by_cases h : k = a
    · subst h
      rw [List.cons_append, lookup_cons_self, lookup_cons_self]
    · rw [List.cons_append, lookup_cons_ne v _ h, lookup_cons_ne v t h, ih]

theorem lookup_append_of_none {β : Type} {l : List (String × β)} {k : String}
    (h : l.lookup k = none) (l2 : List (String × β)) :
    (l ++ l2).lookup k = l2.lookup k := by
  induction l with
  | nil => rfl
  | cons y t ih =>
    obtain ⟨a, v⟩ := y
    by_cases hk : k = a
    · subst hk
      rw [lookup_cons_self] at h
      cases h
    · rw [lookup_cons_ne v t hk] at h
      rw [List.cons_append, lookup_cons_ne v _ hk]
      exact ih h

theorem lookup_map_update {β : Type} (l : List (String × β)) (k : String)
    (f : β → β) :
    (l.map (fun p => if p.1 = k then (p.1, f p.2) else p)).lookup k
      = (l.lookup k).map f := by
  induction l with
  | nil => rfl
  | cons y t ih =>
    obtain ⟨a, v⟩ := y
    rw [List.map_cons]
    dsimp only
    by_cases h : a = k
    · subst h
      rw [if_pos rfl, lookup_cons_self, lookup_cons_self]
      rfl
    · have h2 : k ≠ a := fun hh => h hh.symm
      rw [if_neg h, lookup_cons_ne v _ h2, lookup_cons_ne v t h2, ih]

theorem lookup_map_update_other {β : Type} (l : List (String × β))
    (shop k : String) (f : β → β) (hk : k ≠ shop) :
    (l.map (fun p => if p.1 = shop then (p.1, f p.2) else p)).lookup k
      = l.lookup k := by
  induction l with
  | nil => rfl
  | cons y t ih =>
    obtain ⟨a, v⟩ := y
    rw [List.map_cons]
    dsimp only
    by_cases h : a = shop
    · subst h
      rw [if_pos rfl, lookup_cons_ne (f v) _ hk, lookup_cons_ne v t hk, ih]
    · rw [if_neg h]
      by_cases h3 : k = a
      · subst h3
        rw [lookup_cons_self, lookup_cons_self]
      · rw [lookup_cons_ne v _ h3, lookup_cons_ne v t h3, ih]

theorem lookup_filter_ne {β : Type} (l : List (String × β)) (k : String) :
    (l.filter (fun p => p.1 ≠ k)).lookup k = none := by
  induction l with
  | nil => rfl
  | cons y t ih =>
    obtain ⟨a, v⟩ := y
    by_cases h : a = k
    · subst h
      simpa [List.filter_cons] using ih
    · have h2 : k ≠ a := fun hh => h hh.symm
      rw [List.filter_cons_of_pos (by simp [h]), lookup_cons_ne v _ h2]
      exact ih

theorem filter_ne_of_lookup_none {β : Type} {l : List (String × β)} {k : String}
    (h : l.lookup k = none) : l.filter (fun p => p.1 ≠ k) = l := by
  induction l with
  | nil => rfl
  | cons y t ih =>
    obtain ⟨a, v⟩ := y
    by_cases hk : k = a
    · subst hk
      rw [lookup_cons_self] at h
      cases h
    · rw [lookup_cons_ne v t hk] at h
      have h2 : ¬(a = k) := fun hh => hk hh.symm
      rw [List.filter_cons_of_pos (by simp [h2]), ih h]

theorem lookup_sqlUpsert_self (store : Store) (shop token scope : String)
    (now : Nat) :
    (sqlUpsert store shop token scope now).lookup shop
      = some ⟨token, scope, installedAfter store shop now, now⟩ := by
  unfold sqlUpsert installedAfter
  cases h : store.lookup shop with
  | none =>
    dsimp only
    rw [lookup_append_of_none h]
    exact lookup_cons_self shop _ []
  | some old =>
    dsimp only
    rw [lookup_map_update store shop (upsertRow token scope now), h]
    rfl

theorem lookup_sqlUpsert_other (store : Store) (shop token scope : String)
    (now : Nat) (k : String) (hk : k ≠ shop) :
    (sqlUpsert store shop token scope now).lookup k = store.lookup k := by
  unfold sqlUpsert
  cases h : store.lookup shop with
  | none =>
    dsimp only
    exact lookup_append_single store k shop _ hk
  | some old =>
    dsimp only
    exact lookup_map_update_other store shop k (upsertRow token scope now) hk

theorem callbackHandler_success (hm : String → String → String)
    (secret scopes : String) (tok : TokenResponse) (mode : StorageMode)
    (store : Store) (now : Nat) (q : List (String × String)) (s c : String)
    (hs : q.lookup "shop" = some s) (hs2 : s ≠ "")
    (hc : q.lookup "code" = some c) (hc2 : c ≠ "")
    (hv : verifyHmac hm secret q = true) :
    callbackHandler hm secret scopes (Except.ok tok) mode store now q
      = match saveShop mode store s tok.access_token scopes now with
        | .error _ => (.oauthFailed, store)
        | .ok (store2, _saved) => (.success, store2) := by
  unfold callbackHandler
  rw [hs, hc]
  have hts : jsTruthy (some s) = true := by
    simp [jsTruthy, hs2]
  have htc : jsTruthy (some c) = true := by
    simp [jsTruthy, hc2]
  simp [hts, htc, hv]

theorem eqCost_fst (a b : List Char) : (eqCost a b).1 = (a = b : Bool) := by
  induction a generalizing b with
  | nil => cases b <;> simp [eqCost]
  | cons x xs ih =>
    cases b with
    | nil => simp [eqCost]
    | cons y ys =>
      by_cases h : x = y
      · subst h
        simp [eqCost, ih]
      · simp [eqCost, h]

theorem stringEqCost_fst (a b : String) : ((stringEqCost a b).1 = true) ↔ a = b := by
  rw [stringEqCost, eqCost_fst]
  constructor
  · intro h
    have hd := of_decide_eq_true h
    cases a with
    | mk da =>
      cases b with
      | mk db =>
        have hd2 : da = db := by simpa using hd
        rw [hd2]
  · intro h
    subst h
    simp

/-! ### C1 -/

/-- C1: the `/auth/callback` handler of `src/index.js` never calls
`validateNonce`: a callback whose `shop`, `code` and signature all check
out but whose `state` was never issued (equivalently, was already
consumed — here the registry is empty, so `validateNonce` would return
`false`) is not rejected with a CSRF violation; the handler performs the
token exchange, persists the credential and answers with the success
redirect, changing the store. -/
theorem C1_callback_never_redeems_state :
    (validateNonce [] (some "st1")).1 = false
    ∧ callbackHandler hmDummy "sec" "read_products"
        (Except.ok ⟨"tok_123", "read_products"⟩) .up [] 42 qValid
      = (.success, [("acme.myshopify.com", ⟨"tok_123", "read_products", 42, 42⟩)]) := by
  decide

/-! ### C2 -/

/-- C2 counterexample: a nonce issued at time 0 and redeemed at time
700000 — far older than the 600000 ms TTL, with the sweep not yet run —
still redeems successfully, so redemption does not require the nonce to
be younger than the TTL. -/
theorem C2_expired_nonce_redeems :
    700000 - 0 > 600000 ∧ (validateNonce [("n1", 0)] (some "n1")).1 = true := by
  decide

/-- C2 (amended): `validateNonce` redeems purely by membership: it
returns `true` and deletes the entry iff the nonce is currently in the
registry (was issued and has been neither redeemed nor swept), with no
TTL check of its own; a falsy state is rejected; only the periodic
sweep removes entries older than the 600000 ms TTL. -/
theorem C2_redeem_membership_only (nonces : NonceRegistry) (s : String)
    (hs : s ≠ "") :
    ((validateNonce nonces (some s)).1 = true ↔ (nonces.lookup s).isSome = true)
    ∧ ((nonces.lookup s).isSome = true →
        validateNonce nonces (some s) = (true, nonces.filter (fun p => p.1 ≠ s)))
    ∧ ((nonces.lookup s).isSome = false →
        validateNonce nonces (some s) = (false, nonces))
    ∧ validateNonce nonces none = (false, nonces)
    ∧ (∀ now p, p ∈ sweepNonces now nonces ↔ p ∈ nonces ∧ now - p.2 ≤ 600000) := by
  have hb : (s == "") = false := beq_eq_false_iff_ne.2 hs
  refine ⟨?_, ?_, ?_, rfl, ?_⟩
  · by_cases hmem : (nonces.lookup s).isSome <;> simp [validateNonce, hb, hmem]
  · intro hmem
    simp [validateNonce, hb, hmem]
  · intro hmem
    simp [validateNonce, hb, hmem]
  · intro now p
    simp [sweepNonces, List.mem_filter, Nat.not_lt]

/-- C2 witness: concrete redemption and rejection through
`C2_redeem_membership_only`. -/
theorem C2_redeem_membership_only_witness :
    validateNonce [("n0", 5)] (some "n0") = (true, [])
    ∧ validateNonce [("n0", 5)] (some "zz") = (false, [("n0", 5)]) :=
  ⟨by
    have h := (C2_redeem_membership_only [("n0", 5)] "n0" (by decide)).2.1 (by decide)
    simpa using h,
   (C2_redeem_membership_only [("n0", 5)] "zz" (by decide)).2.2.1 (by decide)⟩

/-! ### C3 -/

/-- C3 counterexample: two claimed signatures of equal validity status
(both invalid for the recomputed digest) take a different number of
character comparisons in the short-circuit `===` of `verifyHmac`: the
one agreeing with the digest on more leading characters costs more, so
the comparison's running time depends on the matching prefix length. -/
theorem C3_comparison_cost_varies :
    verifyHmac (fun _ _ => "deadbeef") "s" [("hmac", "00adbeef"), ("shop", "x")]
      = verifyHmac (fun _ _ => "deadbeef") "s" [("hmac", "dea0beef"), ("shop", "x")]
    ∧ (verifyHmacTimed (fun _ _ => "deadbeef") "s"
          [("hmac", "00adbeef"), ("shop", "x")]).2
      ≠ (verifyHmacTimed (fun _ _ => "deadbeef") "s"
          [("hmac", "dea0beef"), ("shop", "x")]).2 := by
  decide

/-- C3 (amended): the signature comparison of `verifyHmac` is the plain
string equality `===`, not a constant-time comparison: the boolean
verdict of the cost-instrumented model agrees with `verifyHmac` (the
result is correct), and the comparison itself is ordinary structural
equality — the constant-time guarantee claimed by the spec is absent,
as `C3_comparison_cost_varies` exhibits. -/
theorem C3_plain_equality_comparison (hm : String → String → String)
    (secret : String) (query : List (String × String)) :
    (verifyHmacTimed hm secret query).1 = verifyHmac hm secret query
    ∧ ∀ a b : String, ((stringEqCost a b).1 = true ↔ a = b) := by
  refine ⟨?_, stringEqCost_fst⟩
  unfold verifyHmacTimed verifyHmac
  cases h : query.lookup "hmac" with
  | none => rfl
  | some s =>
    dsimp only
    by_cases he : (s == "") = true
    · simp [he]
    · rw [Bool.not_eq_true] at he
      rw [if_neg (by simp [he]), if_neg (by simp [he])]
      apply Bool.eq_iff_iff.2
      rw [stringEqCost_fst, beq_iff_eq]

/-! ### C4 -/

/-- C4 counterexample: the `/debug/shops` endpoint of
`src/unnamed/part_000` returns the whole store: two stores differing
only in an `access_token` value produce different responses, and the
token value itself appears in the response. -/
theorem C4_debug_endpoint_leaks_tokens :
    debugShopsV0 [("acme.myshopify.com", ⟨"tok_123", "read_products", "t0"⟩)]
      ≠ debugShopsV0 [("acme.myshopify.com", ⟨"tok_456", "read_products", "t0"⟩)]
    ∧ (debugShopsV0 [("acme.myshopify.com", ⟨"tok_123", "read_products", "t0"⟩)]).map
        (fun p => p.2.access_token) = ["tok_123"] := by
  decide

/-- C4 (amended): the `src/db.js` list operation `getAllShops` — and the
`src/index.js` `/debug/shops` endpoint, which returns exactly its
result — produce only the (shop, scope, installed_at) projection: the
response is identical for any two stores that differ only in
`access_token` values, in every storage mode. The `part_000` variant's
debug endpoint, by contrast, returns the full records including
`access_token` (see `C4_debug_endpoint_leaks_tokens`). -/
theorem C4_getAllShops_token_independent (mode : StorageMode) (s1 s2 : Store)
    (h : eraseTokens s1 = eraseTokens s2) :
    getAllShops mode s1 = getAllShops mode s2
    ∧ debugShops mode s1 = debugShops mode s2 := by
  have key : ∀ s : Store,
      s.map (fun p => (p.1, p.2.scope, p.2.installed_at))
        = (eraseTokens s).map (fun p => (p.1, p.2.scope, p.2.installed_at)) := by
    intro s
    rw [eraseTokens, List.map_map]
    rfl
  cases mode with
  | connectFail => exact ⟨rfl, rfl⟩
  | queryFail => exact ⟨rfl, rfl⟩
  | up =>
    have hmain : getAllShops .up s1 = getAllShops .up s2 := by
      show Except.ok (s1.map (fun p => (p.1, p.2.scope, p.2.installed_at)))
        = Except.ok (s2.map (fun p => (p.1, p.2.scope, p.2.installed_at)))
      rw [key s1, key s2, h]
    exact ⟨hmain, hmain⟩

/-- C4 witness: two concrete stores differing only in the token value
give equal debug listings, through `C4_getAllShops_token_independent`. -/
theorem C4_getAllShops_token_independent_witness :
    getAllShops .up [("acme.myshopify.com", ⟨"tok_123", "read_products", 5, 5⟩)]
      = getAllShops .up [("acme.myshopify.com", ⟨"tok_456", "read_products", 5, 5⟩)] :=
  (C4_getAllShops_token_independent .up
    [("acme.myshopify.com", ⟨"tok_123", "read_products", 5, 5⟩)]
    [("acme.myshopify.com", ⟨"tok_456", "read_products", 5, 5⟩)] (by decide)).1

/-! ### C5 -/

/-- C5 counterexample: a storage query failure during `getShop` yields
the very same observable result as looking up an absent shop
(`Except.ok none`, the handler-visible `null`), and a storage query
failure during the final persistence step of a fully valid callback
still produces the success redirect, not a 500. -/
theorem C5_query_failure_indistinguishable :
    getShop .queryFail [("acme.myshopify.com", ⟨"tok_123", "read_products", 1, 1⟩)]
        "acme.myshopify.com"
      = getShop .up [] "acme.myshopify.com"
    ∧ (callbackHandler hmDummy "sec" "read_products"
        (Except.ok ⟨"tok_123", "granted"⟩) .queryFail [] 7 qValid).1 = .success :=
  ⟨rfl, rfl⟩

/-- C5 (amended): storage query failures are swallowed, not surfaced as
a distinct error: `getShop` returns the same `null` as for an absent
shop; `saveShop` catches the failure and returns `false`, which the
callback handler ignores, so a persistence query failure yields the
success redirect with no retry; only a connection-acquisition failure
propagates as a thrown error, which the callback's catch turns into the
500, also with no retry. -/
theorem C5_query_failure_swallowed (store store2 : Store) (shop : String)
    (hm : String → String → String) (secret scopes : String)
    (tok : TokenResponse) (now : Nat) (q : List (String × String)) (s c : String)
    (hs : q.lookup "shop" = some s) (hs2 : s ≠ "")
    (hc : q.lookup "code" = some c) (hc2 : c ≠ "")
    (hv : verifyHmac hm secret q = true) :
    getShop .queryFail store shop = Except.ok none
    ∧ getShop .queryFail store shop = getShop .up [] shop
    ∧ callbackHandler hm secret scopes (Except.ok tok) .queryFail store2 now q
        = (.success, store2)
    ∧ callbackHandler hm secret scopes (Except.ok tok) .connectFail store2 now q
        = (.oauthFailed, store2) := by
  refine ⟨rfl, rfl, ?_, ?_⟩
  · rw [callbackHandler_success hm secret scopes tok .queryFail store2 now q s c
      hs hs2 hc hc2 hv]
    rfl
  · rw [callbackHandler_success hm secret scopes tok .connectFail store2 now q s c
      hs hs2 hc hc2 hv]
    rfl

/-- C5 witness: the amended behaviour at a concrete valid callback,
through `C5_query_failure_swallowed`. -/
theorem C5_query_failure_swallowed_witness :
    callbackHandler hmDummy "sec" "read_products"
        (Except.ok ⟨"tok_123", "granted"⟩) .queryFail [] 7 qValid
      = (.success, [])
    ∧ callbackHandler hmDummy "sec" "read_products"
        (Except.ok ⟨"tok_123", "granted"⟩) .connectFail [] 7 qValid
      = (.oauthFailed, []) := by
  have h := C5_query_failure_swallowed [] [] "a" hmDummy "sec" "read_products"
    ⟨"tok_123", "granted"⟩ 7 qValid "acme.myshopify.com" "c0"
    (by decide) (by decide) (by decide) (by decide) (by decide)
  exact ⟨h.2.2.1, h.2.2.2⟩

/-! ### C6 -/

/-- C6 counterexample: the persistence step of the `part_000` callback
overwrites the whole record, so re-installing an already-installed shop
replaces `installed_at` with the new install time instead of preserving
the original one. -/
theorem C6_variant_resets_installed_at :
    (callbackPersistV0
        [("acme.myshopify.com", ⟨"tok_0", "read_products", "2024-01-01"⟩)]
        "acme.myshopify.com" "tok_1" "read_products" "2025-06-01").lookup
        "acme.myshopify.com"
      = some ⟨"tok_1", "read_products", "2025-06-01"⟩
    ∧ ("2025-06-01" : String) ≠ "2024-01-01" := by
  decide

/-- C6 (amended): for the `src/db.js` store the claim holds: `saveShop`
followed by `getShop` returns exactly the upserted token and scope, with
`installed_at` set to the insertion time on the first upsert and
preserved by every subsequent upsert, which changes nothing at other
keys. The `part_000` variant's inline write, however, resets
`installed_at` on every install (see `C6_variant_resets_installed_at`). -/
theorem C6_upsert_get_roundtrip (store : Store) (shop token scope : String)
    (now : Nat) (store2 : Store) (flag : Bool)
    (h : saveShop .up store shop token scope now = Except.ok (store2, flag)) :
    flag = true
    ∧ getShop .up store2 shop
        = Except.ok (some ⟨token, scope, installedAfter store shop now, now⟩)
    ∧ (store.lookup shop = none → installedAfter store shop now = now)
    ∧ (∀ old, store.lookup shop = some old →
        installedAfter store shop now = old.installed_at)
    ∧ (∀ k, k ≠ shop → store2.lookup k = store.lookup k) := by
  have h2 : sqlUpsert store shop token scope now = store2 ∧ true = flag := by
    simpa [saveShop] using h
  obtain ⟨hst, hfl⟩ := h2
  subst hst
  refine ⟨hfl.symm, ?_, ?_, ?_, ?_⟩
  · show Except.ok _ = _
    rw [lookup_sqlUpsert_self]
  · intro hn
    rw [installedAfter, hn]
  · intro old hold
    rw [installedAfter, hold]
  · intro k hk
    exact lookup_sqlUpsert_other store shop token scope now k hk

/-- C6 witness: a second upsert for an installed shop at a concrete
store, through `C6_upsert_get_roundtrip`: the token and scope are the
new ones, `installed_at` keeps its first-install value 3, and an
unrelated key is untouched. -/
theorem C6_upsert_get_roundtrip_witness :
    getShop .up [("acme.myshopify.com", ⟨"t1", "s1", 3, 9⟩)] "acme.myshopify.com"
      = Except.ok (some ⟨"t1", "s1", 3, 9⟩)
    ∧ ([("acme.myshopify.com", (⟨"t1", "s1", 3, 9⟩ : ShopRecord))]).lookup
        "bob.myshopify.com"
      = [("acme.myshopify.com", (⟨"t0", "s0", 3, 3⟩ : ShopRecord))].lookup
        "bob.myshopify.com" := by
  have h := C6_upsert_get_roundtrip
    [("acme.myshopify.com", ⟨"t0", "s0", 3, 3⟩)] "acme.myshopify.com"
    "t1" "s1" 9 [("acme.myshopify.com", ⟨"t1", "s1", 3, 9⟩)] true rfl
  exact ⟨by simpa using h.2.1, h.2.2.2.2 "bob.myshopify.com" (by decide)⟩

/-! ### C7 -/

/-- C7 counterexample: a successful exchange whose response grants scope
`"write_orders"` is persisted with the configured scope
`"read_products"`: the stored scope is not the granted scope of the
token-exchange response. -/
theorem C7_persists_configured_scope_not_granted :
    ((callbackHandler hmDummy "sec" "read_products"
        (Except.ok ⟨"tok_123", "write_orders"⟩) .up [] 7 qValid).2.lookup
        "acme.myshopify.com").map (fun r => r.scope)
      = some "read_products"
    ∧ ("read_products" : String) ≠ "write_orders" := by
  decide

/-- C7 (amended): after a successful token exchange the persisted scope
equals the configured `SCOPES` environment value that the handler passes
to `saveShop`, whatever scope the platform's token-exchange response
granted; the persisted token is the response's `access_token`. -/
theorem C7_scope_from_config (hm : String → String → String)
    (secret scopes : String) (tok : TokenResponse) (store : Store) (now : Nat)
    (q : List (String × String)) (s c : String)
    (hs : q.lookup "shop" = some s) (hs2 : s ≠ "")
    (hc : q.lookup "code" = some c) (hc2 : c ≠ "")
    (hv : verifyHmac hm secret q = true) :
    (callbackHandler hm secret scopes (Except.ok tok) .up store now q).2.lookup s
      = some ⟨tok.access_token, scopes, installedAfter store s now, now⟩ := by
  rw [callbackHandler_success hm secret scopes tok .up store now q s c
    hs hs2 hc hc2 hv]
  show (sqlUpsert store s tok.access_token scopes now).lookup s = _
  rw [lookup_sqlUpsert_self]

/-- C7 witness: the amended behaviour at a concrete valid callback,
through `C7_scope_from_config`. -/
theorem C7_scope_from_config_witness :
    (callbackHandler hmDummy "sec" "read_products"
        (Except.ok ⟨"tok_9", "write_orders"⟩) .up [] 11 qValid).2.lookup
        "acme.myshopify.com"
      = some ⟨"tok_9", "read_products", 11, 11⟩ := by
  have h := C7_scope_from_config hmDummy "sec" "read_products"
    ⟨"tok_9", "write_orders"⟩ [] 11 qValid "acme.myshopify.com" "c0"
    (by decide) (by decide) (by decide) (by decide) (by decide)
  simpa using h

/-! ### C8 -/

/-- C8: `verifyHmac` recomputes the digest over exactly the
non-signature parameters sorted ascending by name and joined as
`key=value` pairs with `&` (the source's key-extraction formulation
coincides with the spec's sort-the-pairs formulation whenever the query
object's keys are distinct, which JS object keys always are); the result
is `true` iff the recomputed digest equals the claimed signature, and a
missing or empty signature parameter yields `false` without any failure,
in both source variants. -/
theorem C8_verifyHmac_canonical (hm : String → String → String) (secret : String)
    (q : List (String × String)) :
    ((q.map Prod.fst).Nodup → canonicalMessage q = specCanonicalMessage q)
    ∧ (∀ h, q.lookup "hmac" = some h → h ≠ "" →
        (verifyHmac hm secret q = true ↔ hm secret (canonicalMessage q) = h))
    ∧ (q.lookup "hmac" = none → verifyHmac hm secret q = false)
    ∧ (q.lookup "hmac" = some "" → verifyHmac hm secret q = false)
    ∧ (q.lookup "hmac" = none → verifyHmacV0 hm secret q = false) := by
  refine ⟨canonicalMessage_eq_spec q, ?_, ?_, ?_, ?_⟩
  · intro h hh hne
    unfold verifyHmac
    rw [hh]
    have hb : (h == "") = false := beq_eq_false_iff_ne.2 hne
    simp [hb]
  · intro hh
    unfold verifyHmac
    rw [hh]
  · intro hh
    unfold verifyHmac
    rw [hh]
    simp
  · intro hh
    unfold verifyHmacV0
    rw [hh]

/-- C8 witness: concrete canonicalization agreement, a verifying query
and a signature-free query, through `C8_verifyHmac_canonical`. -/
theorem C8_verifyHmac_canonical_witness :
    canonicalMessage qValid = specCanonicalMessage qValid
    ∧ verifyHmac hmDummy "sec" qValid = true
    ∧ verifyHmac hmDummy "sec" [("shop", "x")] = false :=
  ⟨(C8_verifyHmac_canonical hmDummy "sec" qValid).1 (by decide),
   ((C8_verifyHmac_canonical hmDummy "sec" qValid).2.1
      "sec:code=c0&shop=acme.myshopify.com&state=st1" (by decide)
      (by decide)).2 (by decide),
   (C8_verifyHmac_canonical hmDummy "sec" [("shop", "x")]).2.2.1 (by decide)⟩

/-! ### C9 -/

/-- C9: deletion is idempotent: `deleteShop` on an absent shop succeeds
(`true`, store unchanged), deleting twice in a row succeeds with the
second call a no-op, and a redelivered uninstall webhook with a valid
header signature for an already-deleted shop still gets the 200 with the
store unchanged. -/
theorem C9_delete_idempotent (store : Store) (shop : String)
    (hb : String → String → String) (secret body : String) (h : String)
    (hsig : hb secret body = h) :
    (store.lookup shop = none → deleteShop .up store shop = Except.ok (store, true))
    ∧ (∀ store2 flag, deleteShop .up store shop = Except.ok (store2, flag) →
        deleteShop .up store2 shop = Except.ok (store2, true))
    ∧ (store.lookup shop = none →
        webhookHandler hb secret .up store body (some h) shop
          = Except.ok (.ok200, store)) := by
  subst hsig
  refine ⟨?_, ?_, ?_⟩
  · intro hn
    show Except.ok _ = _
    rw [filter_ne_of_lookup_none hn]
  · intro store2 flag heq
    have h2 : store.filter (fun p => p.1 ≠ shop) = store2 ∧ true = flag := by
      simpa [deleteShop] using heq
    obtain ⟨hst, _⟩ := h2
    subst hst
    show Except.ok _ = _
    rw [filter_ne_of_lookup_none (lookup_filter_ne store shop)]
  · intro hn
    have hdel : deleteShop .up store shop = Except.ok (store, true) := by
      show Except.ok _ = _
      rw [filter_ne_of_lookup_none hn]
    simp [webhookHandler, hdel]

/-- C9 witness: a redelivered uninstall webhook against an empty store,
through `C9_delete_idempotent`. -/
theorem C9_delete_idempotent_witness :
    webhookHandler hmDummy "sec" .up [] "rawbody" (some (hmDummy "sec" "rawbody"))
        "acme.myshopify.com"
      = Except.ok (.ok200, []) :=
  (C9_delete_idempotent [] "acme.myshopify.com" hmDummy "sec" "rawbody"
    (hmDummy "sec" "rawbody") rfl).2.2 rfl

/-! ### C10 -/

/-- C10 counterexample: an uninstall webhook whose header signature
verifies but whose storage client acquisition fails does not produce a
200: the `pool.connect()` rejection escapes `deleteShop` — the only
`try` is around the query — and the handler throws instead of
responding. -/
theorem C10_connect_failure_no_200 :
    webhookHandler hmDummy "sec" .connectFail
        [("acme.myshopify.com", ⟨"tok_123", "read_products", 1, 1⟩)] "rawbody"
        (some (hmDummy "sec" "rawbody")) "acme.myshopify.com"
      = Except.error () := by
  rfl

/-- C10 (amended): for a verified uninstall webhook, every storage error
raised by the DELETE query is caught inside `deleteShop`, which returns
a boolean the handler ignores, so a query failure still produces the
200; but a failure acquiring the storage client propagates out of
`deleteShop` uncaught, and the handler produces no 200. -/
theorem C10_webhook_200_unless_connect_fails (hb : String → String → String)
    (secret body : String) (store : Store) (h shop : String)
    (hsig : hb secret body = h) :
    webhookHandler hb secret .queryFail store body (some h) shop
      = Except.ok (.ok200, store)
    ∧ (webhookHandler hb secret .up store body (some h) shop).map Prod.fst
      = Except.ok .ok200
    ∧ webhookHandler hb secret .connectFail store body (some h) shop
      = Except.error () := by
  subst hsig
  refine ⟨?_, ?_, ?_⟩ <;> simp [webhookHandler, deleteShop, Except.map]

/-- C10 witness: the amended behaviour at a concrete verified webhook,
through `C10_webhook_200_unless_connect_fails`. -/
theorem C10_webhook_200_unless_connect_fails_witness :
    webhookHandler hmDummy "sec" .queryFail
        [("acme.myshopify.com", ⟨"tok_123", "read_products", 1, 1⟩)] "rawbody"
        (some (hmDummy "sec" "rawbody")) "acme.myshopify.com"
      = Except.ok (.ok200,
          [("acme.myshopify.com", ⟨"tok_123", "read_products", 1, 1⟩)]) :=
  (C10_webhook_200_unless_connect_fails hmDummy "sec" "rawbody"
    [("acme.myshopify.com", ⟨"tok_123", "read_products", 1, 1⟩)]
    (hmDummy "sec" "rawbody") "acme.myshopify.com" rfl).1

